import Mathlib

/-!
Verification of the fault-interception shim in `steam_cef_gpu_fix.c`.

The shim is shallowly embedded: the captured x86-64 register context is a
record of four 64-bit registers (as `Nat`, with explicit `% 2 ^ 64` where the
C performs unsigned arithmetic); process memory is a function from byte
addresses to the 64-bit word stored there; the instruction stream is a
function from byte addresses to the byte stored there.  Each signal handler
is a pure function from the shim state (the `handlers_locked` flag plus the
kernel's per-signal disposition table) and the delivered context to a new
shim state and an outcome: either a replacement context that the kernel will
restore, or a re-raise of the signal.

Within the library a call to the name `sigaction` binds to the interposer
defined in the same translation unit (and, at link time, the preloaded
library precedes libc in lookup order), so the handlers' own
`sigaction(sig, SIG_DFL, NULL)` calls are modelled as calls to the
interposer, not to the underlying facility.
-/

namespace CefFix

/-- The reserved low-address threshold `0x10000` from `steam_cef_gpu_fix.c`. -/
def THRESH : Nat := 0x10000

/-- `2 ^ 64`, the modulus of x86-64 register arithmetic. -/
def W64 : Nat := 2 ^ 64

def SIGILL : Nat := 4
def SIGTRAP : Nat := 5
def SIGSEGV : Nat := 11

/-- The default disposition `SIG_DFL`, encoded as handler value `0`. -/
def SIG_DFL : Nat := 0

/-- The captured execution context of the faulting thread: instruction
pointer, stack pointer, frame pointer and return-value register, each a
64-bit machine word. -/
structure Ctx where
  rip : Nat
  rsp : Nat
  rbp : Nat
  rax : Nat
deriving Repr, DecidableEq

/-- What a handler invocation does to the delivered context: either hand a
replacement context back to the kernel, or re-raise the signal (after the
restore-default attempt and the flag clear recorded in the shim state). -/
inductive Outcome where
  | resume (ctx : Ctx)
  | reraise (sig : Nat)
deriving Repr, DecidableEq

/-- The shim's mutable state: the `handlers_locked` flag and the kernel's
current disposition table (signal number to installed handler value). -/
structure ShimState where
  locked : Bool
  os : Nat → Nat

/-- Result of a `sigaction`-shaped call: the new disposition table, the
return value, and the previous handler read back when requested. -/
structure SigactionResult where
  os : Nat → Nat
  ret : Int
  old : Option Nat

/-- The real OS `sigaction` facility: installs `act` when non-null, reads
back the previous disposition when requested, returns success. -/
def real_sigaction (os : Nat → Nat) (signum : Nat) (act : Option Nat)
    (wantOld : Bool) : SigactionResult :=
  { os := match act with
      | some h => fun s => if s = signum then h else os s
      | none => os
    ret := 0
    old := if wantOld then some (os signum) else none }

/-- The three fault kinds the shim manages, from the interposer's test
`signum == SIGSEGV || signum == SIGTRAP || signum == SIGILL`. -/
def managed (signum : Nat) : Bool :=
  signum == SIGSEGV || signum == SIGTRAP || signum == SIGILL

/-- The interposed `sigaction` (lines 155-166 of `steam_cef_gpu_fix.c`):
while locked, a non-null install for a managed signal is discarded, the
read-back is answered from the real current disposition, and `0` is
returned; every other call passes through to the real facility. -/
def sigaction_shim (locked : Bool) (os : Nat → Nat) (signum : Nat)
    (act : Option Nat) (wantOld : Bool) : SigactionResult :=
  if locked && act.isSome && managed signum then
    { os := os
      ret := 0
      old := if wantOld then some (os signum) else none }
  else
    real_sigaction os signum act wantOld

/-- The interposed `signal` (lines 169-182): while locked, a managed signal
gets `SIG_DFL` echoed back without installing anything; otherwise the
request is forwarded to the real facility via a `sigaction` call that also
reads back the previous handler. -/
def signal_shim (locked : Bool) (os : Nat → Nat) (signum handler : Nat) :
    (Nat → Nat) × Nat :=
  if locked && managed signum then
    (os, SIG_DFL)
  else
    let r := real_sigaction os signum (some handler) true
    (r.os, r.old.getD SIG_DFL)

/-- The SIGSEGV handler (lines 64-99).  Case 1: `rip` below the threshold —
pop the return address from the stack and return 0 to the caller.  Case 2:
fault address below the threshold — unwind one frame through `rbp` when it
is above the threshold, else fall back to the raw stack-top word.
Otherwise: attempt to restore the default disposition through the (still
interposed) `sigaction`, clear the flag, and re-raise SIGSEGV. -/
def sigsegv_handler (mem : Nat → Nat) (si_addr : Nat) (st : ShimState)
    (ctx : Ctx) : ShimState × Outcome :=
  if ctx.rip < THRESH then
    (st, .resume { ctx with
      rax := 0
      rip := mem ctx.rsp
      rsp := (ctx.rsp + 8) % W64 })
  else if si_addr < THRESH then
    if THRESH < ctx.rbp then
      (st, .resume { ctx with
        rax := 0
        rbp := mem ctx.rbp
        rip := mem ((ctx.rbp + 8) % W64)
        rsp := (ctx.rbp + 16) % W64 })
    else
      (st, .resume { ctx with
        rax := 0
        rip := mem ctx.rsp
        rsp := (ctx.rsp + 8) % W64 })
  else
    ({ locked := false
       os := (sigaction_shim st.locked st.os SIGSEGV (some SIG_DFL) false).os },
     .reraise SIGSEGV)

/-- The trap-recognition test of lines 108-109: the byte at `rip` is
`0xcc` (int3), or the bytes at `rip`, `rip + 1` are `0x0f 0x0b` (ud2). -/
def is_crash_insn (insn : Nat → Nat) (rip : Nat) : Bool :=
  insn rip == 0xcc || (insn rip == 0x0f && insn ((rip + 1) % W64) == 0x0b)

/-- The SIGTRAP/SIGILL handler (lines 102-144).  On a recognized trap with a
valid stub frame: unwind two frame-pointer-chain levels when the caller's
saved frame pointer is also valid, else one level through the stub frame.
Otherwise: attempt to restore the default disposition through the (still
interposed) `sigaction`, clear the flag, and re-raise the signal. -/
def crash_handler (insn mem : Nat → Nat) (sig : Nat) (st : ShimState)
    (ctx : Ctx) : ShimState × Outcome :=
  if is_crash_insn insn ctx.rip = true ∧ THRESH < ctx.rbp then
    if THRESH < mem ctx.rbp then
      (st, .resume
        { rax := 0
          rbp := mem (mem ctx.rbp)
          rip := mem ((mem ctx.rbp + 8) % W64)
          rsp := (mem ctx.rbp + 16) % W64 })
    else
      (st, .resume
        { rax := 0
          rbp := mem ctx.rbp
          rip := mem ((ctx.rbp + 8) % W64)
          rsp := (ctx.rbp + 16) % W64 })
  else
    ({ locked := false
       os := (sigaction_shim st.locked st.os sig (some SIG_DFL) false).os },
     .reraise sig)

def SYS_clone3 : Int := 435
def ENOSYS : Nat := 38

/-- Result of a call to the interposed `syscall`: either intercepted (never
handed to the underlying facility) with a return value and an errno, or
forwarded with the call number, the six extracted argument slots, and the
underlying facility's return value and errno. -/
inductive SysOutcome where
  | intercepted (ret : Int) (errno : Nat)
  | forwarded (number : Int) (args : Fin 6 → Int) (ret : Int) (errno : Nat)

/-- The interposed `syscall` (lines 192-211): `SYS_clone3` fails with
`ENOSYS` and is never forwarded; any other number has six argument slots
extracted and forwarded to the real facility, whose result is returned. -/
def syscall_shim (real : Int → (Fin 6 → Int) → Int × Nat) (number : Int)
    (args : Fin 6 → Int) : SysOutcome :=
  if number = SYS_clone3 then
    .intercepted (-1) ENOSYS
  else
    .forwarded number args (real number args).1 (real number args).2

/-- The library constructor `init` (lines 214-232): installs the SIGSEGV
handler and the shared SIGTRAP/SIGILL handler through the real facility,
then sets the armed flag.  `segvH` and `crashH` are the handler values. -/
def shim_init (segvH crashH : Nat) (os : Nat → Nat) : ShimState :=
  let r1 := real_sigaction os SIGSEGV (some segvH) false
  let r2 := real_sigaction r1.os SIGTRAP (some crashH) false
  let r3 := real_sigaction r2.os SIGILL (some crashH) false
  { locked := true, os := r3.os }

/-- The process state before the constructor runs: `handlers_locked` is the
statically-initialized `0`. -/
def initialState (os : Nat → Nat) : ShimState :=
  { locked := false, os := os }

/-- One observable operation on the shim state. -/
inductive Event where
  | segv (mem : Nat → Nat) (si_addr : Nat) (ctx : Ctx)
  | trap (insn : Nat → Nat) (mem : Nat → Nat) (sig : Nat) (ctx : Ctx)
  | sigact (signum : Nat) (act : Option Nat) (wantOld : Bool)
  | sigl (signum : Nat) (handler : Nat)
  | sysc (real : Int → (Fin 6 → Int) → Int × Nat) (number : Int)
      (args : Fin 6 → Int)
  | ctor (segvH crashH : Nat)

/-- The effect of each operation on the shim state. -/
def step (st : ShimState) (e : Event) : ShimState :=
  match e with
  | .segv mem a ctx => (sigsegv_handler mem a st ctx).1
  | .trap insn mem sig ctx => (crash_handler insn mem sig st ctx).1
  | .sigact signum act wantOld =>
      { st with os := (sigaction_shim st.locked st.os signum act wantOld).os }
  | .sigl signum h => { st with os := (signal_shim st.locked st.os signum h).1 }
  | .sysc _ _ _ => st
  | .ctor a b => shim_init a b st.os

/-- Claim C1: for every captured SIGSEGV context whose instruction pointer
is below the reserved threshold `0x10000`, the responder rewrites the
context so that the instruction pointer is the machine word at the original
top of stack, the stack pointer is the original plus 8, and the
return-value register is 0, then returns (leaving the shim state alone),
so no instruction at the faulting instruction pointer is ever executed. -/
theorem sigsegv_null_rip_returns_to_stack_ret (mem : Nat → Nat)
    (si_addr : Nat) (st : ShimState) (ctx : Ctx)
    (hrip : ctx.rip < THRESH) (hw : ctx.rsp + 8 < W64) :
    sigsegv_handler mem si_addr st ctx =
      (st, .resume { ctx with
        rax := 0
        rip := mem ctx.rsp
        rsp := ctx.rsp + 8 }) := by
  unfold sigsegv_handler
  rw [if_pos hrip, Nat.mod_eq_of_lt hw]

theorem sigsegv_null_rip_returns_to_stack_ret_witness :
    sigsegv_handler (fun _ => 0x401000) 0
      { locked := true, os := fun _ => 9 }
      { rip := 8, rsp := 0x7fff0000, rbp := 0x7fff0040, rax := 3 } =
    ({ locked := true, os := fun _ => 9 },
     .resume { rip := 0x401000, rsp := 0x7fff0008, rbp := 0x7fff0040,
               rax := 0 }) :=
  sigsegv_null_rip_returns_to_stack_ret _ _ _ _ (by decide) (by decide)

/-- Claim C2: for every captured SIGSEGV context with instruction pointer at
or above the threshold, fault address below the threshold and frame pointer
above the threshold, the responder produces the standard frame-pointer
return from the current function: return-value register 0, frame pointer
reloaded from the word at the old frame pointer, instruction pointer from
the word 8 above it, stack pointer the old frame pointer plus 16. -/
theorem sigsegv_null_deref_frame_unwind (mem : Nat → Nat) (si_addr : Nat)
    (st : ShimState) (ctx : Ctx)
    (hrip : ¬ ctx.rip < THRESH) (haddr : si_addr < THRESH)
    (hrbp : THRESH < ctx.rbp) (hw : ctx.rbp + 16 < W64) :
    sigsegv_handler mem si_addr st ctx =
      (st, .resume { ctx with
        rax := 0
        rbp := mem ctx.rbp
        rip := mem (ctx.rbp + 8)
        rsp := ctx.rbp + 16 }) := by
  unfold sigsegv_handler
  rw [if_neg hrip, if_pos haddr, if_pos hrbp,
    Nat.mod_eq_of_lt (by omega : ctx.rbp + 8 < W64), Nat.mod_eq_of_lt hw]

theorem sigsegv_null_deref_frame_unwind_witness :
    sigsegv_handler
      (fun a => if a = 0x7fff0040 then 0x7fff0080
                else if a = 0x7fff0048 then 0x402000 else 5)
      0x78 { locked := true, os := fun _ => 9 }
      { rip := 0x401500, rsp := 0x7fff0010, rbp := 0x7fff0040, rax := 3 } =
    ({ locked := true, os := fun _ => 9 },
     .resume { rip := 0x402000, rsp := 0x7fff0050, rbp := 0x7fff0080,
               rax := 0 }) := by
  have h := sigsegv_null_deref_frame_unwind
    (fun a => if a = 0x7fff0040 then 0x7fff0080
              else if a = 0x7fff0048 then 0x402000 else 5)
    0x78 { locked := true, os := fun _ => 9 }
    { rip := 0x401500, rsp := 0x7fff0010, rbp := 0x7fff0040, rax := 3 }
    (by decide) (by decide) (by decide) (by decide)
  simpa using h

/-- Claim C3: for every SIGTRAP/SIGILL context whose instruction bytes match
a recognized trap encoding and whose stub frame pointer and caller saved
frame pointer are both above the threshold, the responder unwinds two
frame-pointer-chain levels: instruction pointer from the second frame's
stored return address, frame pointer from the second frame's saved frame
pointer, stack pointer the caller frame pointer plus 16, return-value
register 0. -/
theorem trap_two_frame_unwind (insn mem : Nat → Nat) (sig : Nat)
    (st : ShimState) (ctx : Ctx)
    (hc : is_crash_insn insn ctx.rip = true) (hrbp : THRESH < ctx.rbp)
    (hcaller : THRESH < mem ctx.rbp) (hw : mem ctx.rbp + 16 < W64) :
    crash_handler insn mem sig st ctx =
      (st, .resume
        { rax := 0
          rbp := mem (mem ctx.rbp)
          rip := mem (mem ctx.rbp + 8)
          rsp := mem ctx.rbp + 16 }) := by
  unfold crash_handler
  rw [if_pos ⟨hc, hrbp⟩, if_pos hcaller,
    Nat.mod_eq_of_lt (by omega : mem ctx.rbp + 8 < W64), Nat.mod_eq_of_lt hw]

theorem trap_two_frame_unwind_witness :
    crash_handler (fun _ => 0xcc)
      (fun a => if a = 0x7fff0040 then 0x7fff0080
                else if a = 0x7fff0080 then 0x7fff00c0
                else if a = 0x7fff0088 then 0x403000 else 5)
      5 { locked := true, os := fun _ => 9 }
      { rip := 0x401500, rsp := 0x7fff0040, rbp := 0x7fff0040, rax := 3 } =
    ({ locked := true, os := fun _ => 9 },
     .resume { rip := 0x403000, rsp := 0x7fff0090, rbp := 0x7fff00c0,
               rax := 0 }) := by
  have h := trap_two_frame_unwind (fun _ => 0xcc)
    (fun a => if a = 0x7fff0040 then 0x7fff0080
              else if a = 0x7fff0080 then 0x7fff00c0
              else if a = 0x7fff0088 then 0x403000 else 5)
    5 { locked := true, os := fun _ => 9 }
    { rip := 0x401500, rsp := 0x7fff0040, rbp := 0x7fff0040, rax := 3 }
    (by decide) (by decide) (by decide) (by decide)
  simpa using h

/-- Claim C8: for every SIGTRAP/SIGILL context whose instruction bytes match
a recognized trap encoding, whose stub frame pointer is above the threshold,
but whose caller saved frame pointer (read from the stub frame) is not, the
responder performs a single-level unwind: return-value register 0, frame
pointer the caller saved frame pointer, instruction pointer the stub
frame's stored return address, stack pointer the stub frame pointer
plus 16. -/
theorem trap_single_frame_unwind (insn mem : Nat → Nat) (sig : Nat)
    (st : ShimState) (ctx : Ctx)
    (hc : is_crash_insn insn ctx.rip = true) (hrbp : THRESH < ctx.rbp)
    (hcaller : ¬ THRESH < mem ctx.rbp) (hw : ctx.rbp + 16 < W64) :
    crash_handler insn mem sig st ctx =
      (st, .resume
        { rax := 0
          rbp := mem ctx.rbp
          rip := mem (ctx.rbp + 8)
          rsp := ctx.rbp + 16 }) := by
  unfold crash_handler
  rw [if_pos ⟨hc, hrbp⟩, if_neg hcaller,
    Nat.mod_eq_of_lt (by omega : ctx.rbp + 8 < W64), Nat.mod_eq_of_lt hw]

theorem trap_single_frame_unwind_witness :
    crash_handler (fun a => if a = 0x401500 then 0x0f else 0x0b)
      (fun a => if a = 0x7fff0040 then 0
                else if a = 0x7fff0048 then 0x404000 else 5)
      4 { locked := true, os := fun _ => 9 }
      { rip := 0x401500, rsp := 0x7fff0040, rbp := 0x7fff0040, rax := 3 } =
    ({ locked := true, os := fun _ => 9 },
     .resume { rip := 0x404000, rsp := 0x7fff0050, rbp := 0,
               rax := 0 }) := by
  have h := trap_single_frame_unwind
    (fun a => if a = 0x401500 then 0x0f else 0x0b)
    (fun a => if a = 0x7fff0040 then 0
              else if a = 0x7fff0048 then 0x404000 else 5)
    4 { locked := true, os := fun _ => 9 }
    { rip := 0x401500, rsp := 0x7fff0040, rbp := 0x7fff0040, rax := 3 }
    (by decide) (by decide) (by decide) (by decide)
  simpa using h

/-- Claim C4: while the armed flag is set, an interposed `sigaction` call
installing a non-null handler for a managed fault kind returns 0, leaves
the effective disposition table unchanged (so a fault immediately afterward
is still delivered to the shim's own responder), and answers a requested
previous-handler read-back from the real current disposition; in every
other case (flag unset, unmanaged kind, or a read-only query with a null
new handler) the call is passed through unmodified to the real facility. -/
theorem sigaction_guard_behavior (locked : Bool) (os : Nat → Nat)
    (signum : Nat) (act : Option Nat) (wantOld : Bool) :
    (locked = true → act.isSome = true → managed signum = true →
      sigaction_shim locked os signum act wantOld =
        { os := os
          ret := 0
          old := if wantOld then some (os signum) else none }) ∧
    (locked = false ∨ act = none ∨ managed signum = false →
      sigaction_shim locked os signum act wantOld =
        real_sigaction os signum act wantOld) := by
  constructor
  · intro h1 h2 h3
    unfold sigaction_shim
    rw [if_pos (by rw [h1, h2, h3]; rfl)]
  · intro h
    unfold sigaction_shim
    rcases h with h | h | h
    · rw [if_neg (by rw [h]; simp)]
    · rw [if_neg (by rw [h]; simp)]
    · rw [if_neg (by rw [h]; simp)]

theorem sigaction_guard_behavior_witness :
    sigaction_shim true (fun _ => 42) 11 (some 99) true =
      { os := fun _ => 42, ret := 0, old := some 42 } ∧
    sigaction_shim false (fun _ => 42) 11 (some 99) true =
      real_sigaction (fun _ => 42) 11 (some 99) true := by
  constructor
  · have h := (sigaction_guard_behavior true (fun _ => 42) 11 (some 99)
      true).1 rfl rfl (by decide)
    simpa using h
  · exact (sigaction_guard_behavior false (fun _ => 42) 11 (some 99)
      true).2 (Or.inl rfl)

/-- Claim C5: the interposed `syscall` returns -1 with errno `ENOSYS` for
`SYS_clone3` with any arguments and never forwards it to the underlying
facility; for every other call number the six argument slots are forwarded
unmodified and the facility's exact result is returned. -/
theorem syscall_clone3_intercept (real : Int → (Fin 6 → Int) → Int × Nat)
    (args : Fin 6 → Int) :
    syscall_shim real SYS_clone3 args = .intercepted (-1) ENOSYS ∧
    ∀ number : Int, number ≠ SYS_clone3 →
      syscall_shim real number args =
        .forwarded number args (real number args).1 (real number args).2 := by
  constructor
  · unfold syscall_shim
    rw [if_pos rfl]
  · intro number hn
    unfold syscall_shim
    rw [if_neg hn]

theorem syscall_clone3_intercept_witness :
    syscall_shim (fun _ _ => (7, 0)) 435 (fun _ => 1) =
      .intercepted (-1) 38 ∧
    syscall_shim (fun _ _ => (7, 0)) 57 (fun _ => 1) =
      .forwarded 57 (fun _ => 1) 7 0 := by
  constructor
  · exact (syscall_clone3_intercept (fun _ _ => (7, 0)) (fun _ => 1)).1
  · exact (syscall_clone3_intercept (fun _ _ => (7, 0)) (fun _ => 1)).2
      57 (by decide)

/-- Claim C10: the armed flag starts false, is set true only by the
constructor (which first installs the three managed handlers), and every
other operation either leaves it alone or clears it — never sets it true;
and once it is false, every `sigaction` and `signal` call, including for
the three managed fault kinds, is passed through to the real facility. -/
theorem armed_flag_monotone :
    (∀ os : Nat → Nat, (initialState os).locked = false) ∧
    (∀ (st : ShimState) (a b : Nat),
      (step st (.ctor a b)).locked = true ∧
      (step st (.ctor a b)).os SIGSEGV = a ∧
      (step st (.ctor a b)).os SIGTRAP = b ∧
      (step st (.ctor a b)).os SIGILL = b) ∧
    (∀ (st : ShimState) (e : Event), (∀ a b : Nat, e ≠ .ctor a b) →
      st.locked = false → (step st e).locked = false) ∧
    (∀ (os : Nat → Nat) (signum : Nat) (act : Option Nat) (wantOld : Bool),
      sigaction_shim false os signum act wantOld =
        real_sigaction os signum act wantOld) ∧
    (∀ (os : Nat → Nat) (signum handler : Nat),
      signal_shim false os signum handler =
        ((real_sigaction os signum (some handler) true).os,
         (real_sigaction os signum (some handler) true).old.getD SIG_DFL)) := by
  refine ⟨fun _ => rfl, fun st a b => ⟨rfl, rfl, rfl, rfl⟩, ?_,
    fun os signum act wantOld => ?_, fun os signum handler => ?_⟩
  · intro st e hne hst
    cases e with
    | segv mem a ctx =>
        simp only [step, sigsegv_handler]
        split
        · exact hst
        · split
          · split
            · exact hst
            · exact hst
          · rfl
    | trap insn mem sig ctx =>
        simp only [step, crash_handler]
        split
        · split
          · exact hst
          · exact hst
        · rfl
    | sigact signum act wantOld => exact hst
    | sigl signum h => exact hst
    | sysc real number args => exact hst
    | ctor a b => exact absurd rfl (hne a b)
  · unfold sigaction_shim
    rw [if_neg (by simp)]
  · unfold signal_shim
    rw [if_neg (by simp)]

theorem armed_flag_monotone_witness :
    (step { locked := false, os := fun _ => 3 }
      (.segv (fun _ => 0) 0x20000
        { rip := 0x20000, rsp := 0x30000, rbp := 0x30000, rax := 0 })).locked
      = false :=
  armed_flag_monotone.2.2.1
    { locked := false, os := fun _ => 3 }
    (.segv (fun _ => 0) 0x20000
      { rip := 0x20000, rsp := 0x30000, rbp := 0x30000, rax := 0 })
    (fun _ _ h => Event.noConfusion h) rfl

/-- Claim C6, evaluated at the failing input: on an unrecognized fault
(SIGSEGV with both the instruction pointer and the fault address at or
above the threshold; SIGTRAP with non-matching instruction bytes) while the
armed flag is set, the responder clears the flag and re-raises the same
signal — but its restore-default call goes through the interposed
`sigaction`, which discards it because the flag is still set at that
moment, so the effective disposition is NOT reset to `SIG_DFL` on this
delivery: it stays the shim handler (here `100`). -/
theorem unrecognized_fault_restore_discarded :
    ((sigsegv_handler (fun _ => 0) 0x20000
        { locked := true, os := fun _ => 100 }
        { rip := 0x20000, rsp := 0x30000, rbp := 0x30000, rax := 1 }).1.os
            SIGSEGV = 100 ∧
      (sigsegv_handler (fun _ => 0) 0x20000
        { locked := true, os := fun _ => 100 }
        { rip := 0x20000, rsp := 0x30000, rbp := 0x30000, rax := 1 }).1.locked
            = false ∧
      (sigsegv_handler (fun _ => 0) 0x20000
        { locked := true, os := fun _ => 100 }
        { rip := 0x20000, rsp := 0x30000, rbp := 0x30000, rax := 1 }).2
            = .reraise SIGSEGV ∧
      (100 : Nat) ≠ SIG_DFL) ∧
    ((crash_handler (fun _ => 0x90) (fun _ => 0) SIGTRAP
        { locked := true, os := fun _ => 100 }
        { rip := 0x20000, rsp := 0x30000, rbp := 0x30000, rax := 1 }).1.os
            SIGTRAP = 100 ∧
      (crash_handler (fun _ => 0x90) (fun _ => 0) SIGTRAP
        { locked := true, os := fun _ => 100 }
        { rip := 0x20000, rsp := 0x30000, rbp := 0x30000, rax := 1 }).1.locked
            = false ∧
      (crash_handler (fun _ => 0x90) (fun _ => 0) SIGTRAP
        { locked := true, os := fun _ => 100 }
        { rip := 0x20000, rsp := 0x30000, rbp := 0x30000, rax := 1 }).2
            = .reraise SIGTRAP) :=
  ⟨⟨rfl, rfl, rfl, by decide⟩, ⟨rfl, rfl, rfl⟩⟩

/-- Claim C7, counterexample: a recognized trap (byte `0xcc` at the
instruction pointer) whose stub frame pointer is below the threshold.  The
claim says the responder falls back to the raw top-of-stack return address;
the code instead re-raises, and does not produce the stack-top-fallback
context. -/
theorem trap_fallback_counterexample :
    (crash_handler (fun _ => 0xcc) (fun _ => 0x405000) 5
        { locked := true, os := fun _ => 100 }
        { rip := 0x401500, rsp := 0x30000, rbp := 0x10, rax := 1 }).2
      = .reraise 5 ∧
    (crash_handler (fun _ => 0xcc) (fun _ => 0x405000) 5
        { locked := true, os := fun _ => 100 }
        { rip := 0x401500, rsp := 0x30000, rbp := 0x10, rax := 1 }).2
      ≠ .resume { rip := 0x405000, rsp := 0x30008, rbp := 0x10, rax := 0 } :=
  ⟨rfl, by decide⟩

/-- Claim C7 as amended: the raw top-of-stack fallback on an invalid frame
pointer exists only for the invalid-memory-access kind (SIGSEGV with fault
address below the threshold and frame pointer not above it).  For the
recognized-trap kind, a stub frame pointer not above the threshold leads
to restore-and-re-raise with no stack-top fallback, and an invalid caller
saved frame pointer (with a valid stub frame) leads to a single-level
unwind through the stub frame, not to the stack-top word. -/
theorem fallback_policy_amended (mem insn : Nat → Nat)
    (si_addr sig : Nat) (st : ShimState) (ctx : Ctx) :
    (¬ ctx.rip < THRESH → si_addr < THRESH → ¬ THRESH < ctx.rbp →
      ctx.rsp + 8 < W64 →
      sigsegv_handler mem si_addr st ctx =
        (st, .resume { ctx with
          rax := 0
          rip := mem ctx.rsp
          rsp := ctx.rsp + 8 })) ∧
    (is_crash_insn insn ctx.rip = true → ¬ THRESH < ctx.rbp →
      crash_handler insn mem sig st ctx =
        ({ locked := false
           os := (sigaction_shim st.locked st.os sig (some SIG_DFL)
             false).os },
         .reraise sig)) ∧
    (is_crash_insn insn ctx.rip = true → THRESH < ctx.rbp →
      ¬ THRESH < mem ctx.rbp → ctx.rbp + 16 < W64 →
      crash_handler insn mem sig st ctx =
        (st, .resume
          { rax := 0
            rbp := mem ctx.rbp
            rip := mem (ctx.rbp + 8)
            rsp := ctx.rbp + 16 })) := by
  refine ⟨?_, ?_, ?_⟩
  · intro hrip haddr hrbp hw
    unfold sigsegv_handler
    rw [if_neg hrip, if_pos haddr, if_neg hrbp, Nat.mod_eq_of_lt hw]
  · intro hc hrbp
    unfold crash_handler
    rw [if_neg (by intro hand; exact hrbp hand.2)]
  · intro hc hrbp hcaller hw
    unfold crash_handler
    rw [if_pos ⟨hc, hrbp⟩, if_neg hcaller,
      Nat.mod_eq_of_lt (by omega : ctx.rbp + 8 < W64), Nat.mod_eq_of_lt hw]

theorem fallback_policy_amended_witness :
    sigsegv_handler (fun _ => 0x406000) 0x78
      { locked := true, os := fun _ => 9 }
      { rip := 0x401500, rsp := 0x30000, rbp := 0x10, rax := 1 } =
    ({ locked := true, os := fun _ => 9 },
     .resume { rip := 0x406000, rsp := 0x30008, rbp := 0x10, rax := 0 }) ∧
    (crash_handler (fun _ => 0xcc) (fun _ => 0x406000) 5
      { locked := true, os := fun _ => 9 }
      { rip := 0x401500, rsp := 0x30000, rbp := 0x10, rax := 1 }).2
      = .reraise 5 := by
  constructor
  · have h := (fallback_policy_amended (fun _ => 0x406000) (fun _ => 0)
      0x78 5 { locked := true, os := fun _ => 9 }
      { rip := 0x401500, rsp := 0x30000, rbp := 0x10, rax := 1 }).1
      (by decide) (by decide) (by decide) (by decide)
    simpa using h
  · have h := (fallback_policy_amended (fun _ => 0x406000) (fun _ => 0xcc)
      0x78 5 { locked := true, os := fun _ => 9 }
      { rip := 0x401500, rsp := 0x30000, rbp := 0x10, rax := 1 }).2.1
      (by decide) (by decide)
    rw [h]

/-- Claim C9, counterexample: the responder can restore a context whose
instruction pointer lies in the reserved low-address region the shim itself
treats as unmapped.  Here execution jumped to address 8 and the word at the
top of the stack is 7, so the rewritten context resumes at 7 — below the
threshold, in unmapped memory — with no validation. -/
theorem resume_target_low_counterexample :
    (sigsegv_handler (fun _ => 7) 5 { locked := true, os := fun _ => 9 }
        { rip := 8, rsp := 0x20000, rbp := 0x20040, rax := 1 }).2
      = .resume { rip := 7, rsp := 0x20008, rbp := 0x20040, rax := 0 } ∧
    (7 : Nat) < THRESH :=
  ⟨rfl, by decide⟩

/-- Claim C9 as amended: for every delivered fault the responder either
clears the armed flag and re-raises, or resumes at a return address read
from the stack or the frame-pointer chain (the word at the stack pointer,
the word 8 above the frame pointer, or the word 8 above the saved caller
frame pointer); the value read is never validated, so the resumed
instruction pointer is not guaranteed to lie in mapped code. -/
theorem resume_target_characterization (mem insn : Nat → Nat)
    (si_addr sig : Nat) (st : ShimState) (ctx : Ctx) :
    ((sigsegv_handler mem si_addr st ctx).2 = .reraise SIGSEGV ∨
      ∃ c : Ctx, (sigsegv_handler mem si_addr st ctx).2 = .resume c ∧
        (c.rip = mem ctx.rsp ∨ c.rip = mem ((ctx.rbp + 8) % W64))) ∧
    ((crash_handler insn mem sig st ctx).2 = .reraise sig ∨
      ∃ c : Ctx, (crash_handler insn mem sig st ctx).2 = .resume c ∧
        (c.rip = mem ((ctx.rbp + 8) % W64) ∨
          c.rip = mem ((mem ctx.rbp + 8) % W64))) := by
  constructor
  · unfold sigsegv_handler
    split
    · exact Or.inr ⟨_, rfl, Or.inl rfl⟩
    · split
      · split
        · exact Or.inr ⟨_, rfl, Or.inr rfl⟩
        · exact Or.inr ⟨_, rfl, Or.inl rfl⟩
      · exact Or.inl rfl
  · unfold crash_handler
    split
    · split
      · exact Or.inr ⟨_, rfl, Or.inr rfl⟩
      · exact Or.inr ⟨_, rfl, Or.inl rfl⟩
    · exact Or.inl rfl

end CefFix
